import Mathlib

/-!
Verification of the live anomaly-detector pipeline (active_testing.py).

The embedding models, over exact rationals:
  - the 17-feature data model (canonical order and clip ranges),
  - ping_test (network probe wrapper with its try/except behavior),
  - read_arduino_data (sensor-link line parser with its try/except behavior),
  - categorize_anomaly (the six-rule category engine),
  - the main-loop row assembly (merge, default-to-0, clip) and category
    selection.

External effects (subprocess output, serial bytes, psutil readings, the
pickled model's prediction) are inputs to the embedded functions.  Python
floats are modelled as exact rationals; decimal literals of the source are
read exactly.
-/

/-- The 17 canonical features of the pipeline. -/
inductive Feature where
  | ambient_temp | ax | ay | az | bytes_recv | bytes_sent
  | cpu_load | cpu_temp | gx | gy | gz | humidity
  | motion_level | packet_loss | ping_avg | ping_jitter | wifi_strength
deriving DecidableEq

/-- `feature_order` — the canonical feature order of the source (must match
training). -/
def feature_order : List Feature :=
  [Feature.ambient_temp, Feature.ax, Feature.ay, Feature.az,
   Feature.bytes_recv, Feature.bytes_sent,
   Feature.cpu_load, Feature.cpu_temp, Feature.gx, Feature.gy, Feature.gz,
   Feature.humidity, Feature.motion_level, Feature.packet_loss,
   Feature.ping_avg, Feature.ping_jitter, Feature.wifi_strength]

/-- `feature_clip_ranges` — the per-feature (min, max) clip bounds of the
source. -/
def feature_clip_ranges : Feature → ℚ × ℚ
  | Feature.ambient_temp => (15, 35)
  | Feature.ax => (-20000, 20000)
  | Feature.ay => (-20000, 20000)
  | Feature.az => (-20000, 20000)
  | Feature.gx => (-5000, 5000)
  | Feature.gy => (-5000, 5000)
  | Feature.gz => (-5000, 5000)
  | Feature.bytes_recv => (0, 50000000)
  | Feature.bytes_sent => (0, 50000000)
  | Feature.cpu_load => (0, 100)
  | Feature.cpu_temp => (20, 90)
  | Feature.humidity => (0, 100)
  | Feature.motion_level => (0, 100)
  | Feature.packet_loss => (0, 100)
  | Feature.ping_avg => (0, 2000)
  | Feature.ping_jitter => (0, 200)
  | Feature.wifi_strength => (-100, 0)

/-- A merged row before the clip loop: each feature either absent (`none`,
Python `None`) or a number. -/
def MergedRow : Type := Feature → Option ℚ

/-- One iteration of the source's clip loop body for feature `f`:
`if row[f] is None: row[f] = 0 else: row[f] = min(max(row[f], min_val), max_val)`. -/
def clipStep (r : MergedRow) (f : Feature) : MergedRow :=
  fun g =>
    if g = f then
      some (match r f with
            | none => 0
            | some v => min (max v (feature_clip_ranges f).1) (feature_clip_ranges f).2)
    else r g

/-- The source's `for f in feature_order` clip loop, folded over the feature
list. -/
def clipLoop (r : MergedRow) : List Feature → MergedRow
  | [] => r
  | f :: fs => clipLoop (clipStep r f) fs

/-- The per-feature effect of the clip loop body, as a function of the
feature's merged value. -/
def clipVal (f : Feature) : Option ℚ → ℚ
  | none => 0
  | some v => min (max v (feature_clip_ranges f).1) (feature_clip_ranges f).2

/-- Modelled from the spec's contract words for assembly: if the merged
value is absent the assembled value is exactly `0`; if present and equal to
`v` it is `max(min_f, min(max_f, v))`.  Compared below against the source's
clip loop. -/
def assemble_spec (r : MergedRow) (f : Feature) : ℚ :=
  match r f with
  | none => 0
  | some v => max (feature_clip_ranges f).1 (min (feature_clip_ranges f).2 v)

/-- A fully assembled row, as read back from the single-row DataFrame. -/
def RowVals : Type := Feature → ℚ

/-- `eps` default of `categorize_anomaly` (`1e-6`). -/
def epsDefault : ℚ := 1 / 1000000

/-- `network_bad` — the shared predicate of the category engine:
`ping_avg > 100 or packet_loss > 0.1 or ping_jitter > 30`. -/
def network_bad (row : RowVals) : Prop :=
  row Feature.ping_avg > 100 ∨ row Feature.packet_loss > 0.1 ∨
    row Feature.ping_jitter > 30

instance (row : RowVals) : Decidable (network_bad row) :=
  inferInstanceAs (Decidable (row Feature.ping_avg > 100 ∨
    row Feature.packet_loss > 0.1 ∨ row Feature.ping_jitter > 30))

/-- `jitter_ratio = ping_jitter / (ping_avg + eps)`. -/
def jitter_ratio (eps : ℚ) (row : RowVals) : ℚ :=
  row Feature.ping_jitter / (row Feature.ping_avg + eps)

/-- `categorize_anomaly` — the six rules, in source order, first match wins. -/
def categorize_anomaly (eps : ℚ) (row : RowVals) : String :=
  if network_bad row ∧ (row Feature.cpu_temp > 65 ∨ row Feature.cpu_load > 6) then
    "Thermal"
  else if network_bad row ∧ row Feature.motion_level > 0 then
    "Motion-Induced"
  else if network_bad row ∧ (row Feature.wifi_strength < -70 ∨
      row Feature.ping_jitter > 40 ∨ jitter_ratio eps row > 0.4) then
    "Weak Signal"
  else if (row Feature.ping_jitter > 40 ∨ jitter_ratio eps row > 0.6) ∧
      (row Feature.cpu_temp ≤ 65 ∧ row Feature.wifi_strength ≥ -70) then
    "Unknown Network Issue"
  else if network_bad row ∧ row Feature.cpu_load > 8 then
    "System Load"
  else
    "Normal"

/-- A row holding the seven values the category engine reads; every other
feature is 0 (the engine never reads them). -/
def scenarioRow (pa pl pj ct cl ml ws : ℚ) : RowVals := fun f =>
  match f with
  | Feature.ping_avg => pa
  | Feature.packet_loss => pl
  | Feature.ping_jitter => pj
  | Feature.cpu_temp => ct
  | Feature.cpu_load => cl
  | Feature.motion_level => ml
  | Feature.wifi_strength => ws
  | _ => 0

/-- The exceptions the body of `ping_test` can raise (all are caught by its
bare `except`). -/
inductive PingErr where
  | statisticsError
  | zeroDivisionError
deriving DecidableEq

/-- `statistics.mean` of a list: raises `StatisticsError` on an empty list. -/
def listMean : List ℚ → Except PingErr ℚ
  | [] => Except.error PingErr.statisticsError
  | l => Except.ok (l.sum / l.length)

/-- The body of `ping_test` after a successful `subprocess.check_output`,
given the latencies parsed from the `time=` lines of the ping output.
`pstdev` is the population standard deviation; its floating-point square
root is kept abstract as the argument `pstdev` (no claim depends on its
value, only on where it is computed).  Raises on an empty latency list
(`statistics.mean`) or a zero `count` (division). -/
def pingBody (pstdev : List ℚ → ℚ) (count : ℕ) (latencies : List ℚ) :
    Except PingErr (ℚ × ℚ × ℚ) := do
  let avg ← listMean latencies
  let loss ← if count = 0 then Except.error PingErr.zeroDivisionError
             else Except.ok (100 - ((latencies.length : ℚ) / (count : ℚ) * 100))
  Except.ok (avg, loss, pstdev latencies)

/-- `ping_test` — `outcome` is `none` when `subprocess.check_output` (or the
`time=` parse) raised, `some latencies` otherwise.  Any exception in the body
is caught and turned into the failure triple `(None, 100, None)`. -/
def ping_test (pstdev : List ℚ → ℚ) (count : ℕ) (outcome : Option (List ℚ)) :
    Option ℚ × ℚ × Option ℚ :=
  match outcome with
  | none => (none, 100, none)
  | some latencies =>
    match pingBody pstdev count latencies with
    | Except.error _ => (none, 100, none)
    | Except.ok (avg, loss, jitter) => (some avg, loss, some jitter)

/-- The data decoded from one sensor-link record: the subset of the nine
recognized keys that were present (`float`-valued for T and H, `int`-valued
for the rest). -/
structure ArduinoData where
  ambient_temp : Option ℚ
  humidity : Option ℚ
  motion_level : Option ℤ
  ax : Option ℤ
  ay : Option ℤ
  az : Option ℤ
  gx : Option ℤ
  gy : Option ℤ
  gz : Option ℤ
deriving DecidableEq

/-- The empty dict (`{}`) of sensor data. -/
def emptyArduinoData : ArduinoData :=
  ⟨none, none, none, none, none, none, none, none, none⟩

/-- Python `str.split(sep)` for a one-character separator. -/
def splitOnChar (c : Char) : List Char → List (List Char)
  | [] => [[]]
  | x :: xs =>
    match splitOnChar c xs with
    | [] => [[]]
    | r :: rs => if x = c then [] :: r :: rs else (x :: r) :: rs

/-- Python `str.strip()`: drop leading and trailing whitespace. -/
def stripChars (l : List Char) : List Char :=
  ((l.dropWhile Char.isWhitespace).reverse.dropWhile Char.isWhitespace).reverse

/-- Python `str.upper()` (ASCII suffices for the sensor-link keys). -/
def upperChars (l : List Char) : List Char :=
  l.map Char.toUpper

/-- Digits of a base-10 numeral to a number; `none` if empty or any
non-digit. -/
def digitsVal (l : List Char) : Option ℕ :=
  match l with
  | [] => none
  | _ =>
    l.foldl (fun acc c =>
      match acc with
      | none => none
      | some n => if c.isDigit then some (n * 10 + (c.toNat - 48)) else none)
      (some 0)

/-- Python `int(value)` on an already-stripped string: optional sign then
base-10 digits; `none` models `ValueError`.  (Underscore separators are not
modelled; the sensor link never emits them.) -/
def parsePyInt (l : List Char) : Option ℤ :=
  match l with
  | '-' :: rest => (digitsVal rest).map (fun n => -(n : ℤ))
  | '+' :: rest => (digitsVal rest).map (fun n => (n : ℤ))
  | _ => (digitsVal l).map (fun n => (n : ℤ))

/-- The unsigned part of Python `float(value)`: `digits`, `digits.`,
`.digits` or `digits.digits`; the decimal value is read exactly into ℚ.
(Exponents, `inf` and `nan` are not modelled; the sensor link never emits
them.) -/
def parsePyFloatMag (l : List Char) : Option ℚ :=
  match splitOnChar '.' l with
  | [ip] => (digitsVal ip).map (fun n => (n : ℚ))
  | [ip, fp] =>
    if ip = [] ∧ fp = [] then none
    else do
      let ipn ← if ip = [] then some 0 else digitsVal ip
      let fpn ← if fp = [] then some 0 else digitsVal fp
      some ((ipn : ℚ) + (fpn : ℚ) / (10 : ℚ) ^ fp.length)
  | _ => none

/-- Python `float(value)` on an already-stripped string; `none` models
`ValueError`. -/
def parsePyFloat (l : List Char) : Option ℚ :=
  match l with
  | '-' :: rest => (parsePyFloatMag rest).map (fun q => -q)
  | '+' :: rest => parsePyFloatMag rest
  | _ => parsePyFloatMag l

/-- The exceptions the record-parsing loop can raise (all are caught). -/
inductive ParseErr where
  | unpackError
  | valueError
deriving DecidableEq

/-- `data[key.lower()] = int(value)` for a motion-unit key among
AX, AY, AZ, GX, GY, GZ. -/
def setImu (d : ArduinoData) (key : List Char) (n : ℤ) : ArduinoData :=
  if key = ['A', 'X'] then { d with ax := some n }
  else if key = ['A', 'Y'] then { d with ay := some n }
  else if key = ['A', 'Z'] then { d with az := some n }
  else if key = ['G', 'X'] then { d with gx := some n }
  else if key = ['G', 'Y'] then { d with gy := some n }
  else if key = ['G', 'Z'] then { d with gz := some n }
  else d

/-- One iteration of the pair loop: `key, value = p.split(':')` (raises
unless exactly two parts), strip and upper-case the key, strip the value,
then dispatch on the recognized keys; an unrecognized key is ignored. -/
def parsePair (d : ArduinoData) (p : List Char) : Except ParseErr ArduinoData :=
  match splitOnChar ':' p with
  | [k, v] =>
    let key := upperChars (stripChars k)
    let value := stripChars v
    if key = ['T'] then
      match parsePyFloat value with
      | some x => Except.ok { d with ambient_temp := some x }
      | none => Except.error ParseErr.valueError
    else if key = ['H'] then
      match parsePyFloat value with
      | some x => Except.ok { d with humidity := some x }
      | none => Except.error ParseErr.valueError
    else if key = ['M'] then
      match parsePyInt value with
      | some n => Except.ok { d with motion_level := some n }
      | none => Except.error ParseErr.valueError
    else if key ∈ [['A', 'X'], ['A', 'Y'], ['A', 'Z'],
                   ['G', 'X'], ['G', 'Y'], ['G', 'Z']] then
      match parsePyInt value with
      | some n => Except.ok (setImu d key n)
      | none => Except.error ParseErr.valueError
    else
      Except.ok d
  | _ => Except.error ParseErr.unpackError

/-- The pair loop over `parts = line.split(',')`: stops at the first
exception. -/
def parsePairs (d : ArduinoData) : List (List Char) → Except ParseErr ArduinoData
  | [] => Except.ok d
  | p :: ps =>
    match parsePair d p with
    | Except.ok d2 => parsePairs d2 ps
    | Except.error e => Except.error e

/-- The body of the `try` in `read_arduino_data`, on the stripped line. -/
def parseArduinoLine (l : List Char) : Except ParseErr ArduinoData :=
  parsePairs emptyArduinoData (splitOnChar ',' l)

/-- `read_arduino_data` — `input` is `none` when no record is ready
(`ser.in_waiting == 0`), `some raw` the decoded line otherwise.  The line is
stripped, then parsed; any exception in the parse is caught and the poll
yields `None`. -/
def read_arduino_data (input : Option String) : Option ArduinoData :=
  match input with
  | none => none
  | some raw =>
    match parseArduinoLine (stripChars raw.data) with
    | Except.ok d => some d
    | Except.error _ => none

/-- `collect_system_metrics()`: `cpu_temp` is `None` when no `cpu_thermal`
sensor is present; the other three psutil readings are always numbers. -/
structure SysMetrics where
  cpu_temp : Option ℚ
  bytes_sent : ℚ
  bytes_recv : ℚ
  cpu_load : ℚ

/-- The all-`None` row literal at the top of the loop body. -/
def initRow : MergedRow := fun _ => none

/-- `row.update(sys_data)`: the four keys are set to the dict's values
(`cpu_temp` may be set to `None` again). -/
def updateSys (r : MergedRow) (s : SysMetrics) : MergedRow := fun f =>
  match f with
  | Feature.cpu_temp => s.cpu_temp
  | Feature.bytes_sent => some s.bytes_sent
  | Feature.bytes_recv => some s.bytes_recv
  | Feature.cpu_load => some s.cpu_load
  | _ => r f

/-- `row.update(arduino_data)`: only the keys present in the decoded dict
are overwritten (its values are never `None`). -/
def updateArduino (r : MergedRow) (a : ArduinoData) : MergedRow := fun f =>
  match f with
  | Feature.ambient_temp => match a.ambient_temp with
    | some v => some v
    | none => r f
  | Feature.humidity => match a.humidity with
    | some v => some v
    | none => r f
  | Feature.motion_level => match a.motion_level with
    | some n => some (n : ℚ)
    | none => r f
  | Feature.ax => match a.ax with
    | some n => some (n : ℚ)
    | none => r f
  | Feature.ay => match a.ay with
    | some n => some (n : ℚ)
    | none => r f
  | Feature.az => match a.az with
    | some n => some (n : ℚ)
    | none => r f
  | Feature.gx => match a.gx with
    | some n => some (n : ℚ)
    | none => r f
  | Feature.gy => match a.gy with
    | some n => some (n : ℚ)
    | none => r f
  | Feature.gz => match a.gz with
    | some n => some (n : ℚ)
    | none => r f
  | _ => r f

/-- `row.update({packet_loss, ping_avg, ping_jitter, wifi_strength})`:
`packet_loss` is always a number; the other three may be set to `None`. -/
def updatePing (r : MergedRow) (pt : Option ℚ × ℚ × Option ℚ)
    (wifi : Option ℤ) : MergedRow := fun f =>
  match f with
  | Feature.packet_loss => some pt.2.1
  | Feature.ping_avg => pt.1
  | Feature.ping_jitter => pt.2.2
  | Feature.wifi_strength => wifi.map (fun z => (z : ℚ))
  | _ => r f

/-- The external inputs of one loop iteration: the four probe outcomes and
the loaded model's prediction on the scaled row (the pickled scaler and
model are opaque artifacts, so the prediction is an input). -/
structure LoopInput where
  pstdev : List ℚ → ℚ
  pingOutcome : Option (List ℚ)
  sysData : SysMetrics
  arduinoLine : Option String
  wifi : Option ℤ
  pred : ℤ

/-- The fields of the published record that the claims concern. -/
structure LoopRecord where
  is_anomaly : ℕ
  category : String
  features : MergedRow

/-- One iteration of the main loop, up to the published record: probe,
merge (`sys_data`, then `arduino_data or {}`, then the ping dict),
default-and-clip over `feature_order`, `is_anomaly = int(pred == -1)`, and
the category selection. -/
def loopIteration (inp : LoopInput) : LoopRecord :=
  let pt := ping_test inp.pstdev 3 inp.pingOutcome
  let arduino := (read_arduino_data inp.arduinoLine).getD emptyArduinoData
  let row := updatePing (updateArduino (updateSys initRow inp.sysData) arduino)
    pt inp.wifi
  let clipped := clipLoop row feature_order
  let is_anomaly : ℕ := if inp.pred = -1 then 1 else 0
  let category :=
    if is_anomaly ≠ 0 then
      categorize_anomaly epsDefault (fun f => (clipped f).getD 0)
    else "Normal"
  ⟨is_anomaly, category, clipped⟩

/-! ## Helper lemmas -/

/-- After the clip loop, every feature's value is exactly the clip-loop body
applied to its merged value: each feature is processed once, and processing
one feature does not read or write any other. -/
theorem clipLoop_char (r : MergedRow) (f : Feature) :
    clipLoop r feature_order f = some (clipVal f (r f)) := by
  rcases hrf : r f with _ | v <;> cases f <;>
    simp_all [feature_order, clipLoop, clipStep, clipVal, feature_clip_ranges]

/-- Every clip range of the source is well-formed (`min ≤ max`). -/
theorem ranges_le (f : Feature) :
    (feature_clip_ranges f).1 ≤ (feature_clip_ranges f).2 := by
  cases f <;> norm_num [feature_clip_ranges]

/-- The source's clip `min(max(v, mn), mx)` agrees with the spec's
`max(mn, min(mx, v))` whenever `mn ≤ mx`. -/
theorem clip_comm (mn mx v : ℚ) (h : mn ≤ mx) :
    min (max v mn) mx = max mn (min mx v) := by
  rcases le_total v mn with h1 | h1 <;> rcases le_total v mx with h2 | h2 <;>
    simp [min_def, max_def] <;> split_ifs <;> linarith

/-! ## Claims -/

/-- C1 counterexample: the claim fails as stated.  On a merged map where
`ambient_temp` is absent from every source, assembly defaults it to `0`,
which is outside its clip interval `[15, 35]`. -/
theorem ambient_default_out_of_range :
    clipLoop initRow feature_order Feature.ambient_temp = some 0 ∧
      ¬((feature_clip_ranges Feature.ambient_temp).1 ≤ 0 ∧
        (0 : ℚ) ≤ (feature_clip_ranges Feature.ambient_temp).2) := by
  refine ⟨?_, by norm_num [feature_clip_ranges]⟩
  rw [clipLoop_char]; rfl

/-- C1 (amended): for every merged input map and every canonical field whose
merged value is present, the assembled value lies in that field's closed clip
interval `[min_f, max_f]`; a field absent from every source is defaulted to
`0` without clipping, which may lie outside the interval. -/
theorem present_value_in_clip_range (r : MergedRow) (f : Feature) (v : ℚ)
    (h : r f = some v) :
    ∃ w, clipLoop r feature_order f = some w ∧
      (feature_clip_ranges f).1 ≤ w ∧ w ≤ (feature_clip_ranges f).2 := by
  refine ⟨clipVal f (r f), clipLoop_char r f, ?_, ?_⟩ <;>
    rw [h] <;> unfold clipVal
  · exact le_min (le_max_right _ _) (ranges_le f)
  · exact min_le_right _ _

theorem present_value_in_clip_range_witness :
    ∃ w, clipLoop (fun _ => some 50) feature_order Feature.ambient_temp = some w ∧
      (feature_clip_ranges Feature.ambient_temp).1 ≤ w ∧
      w ≤ (feature_clip_ranges Feature.ambient_temp).2 :=
  present_value_in_clip_range (fun _ => some 50) Feature.ambient_temp 50 rfl

/-- C2: assembly behaves exactly as the stated default-then-clip contract:
an absent merged value becomes exactly `0` (never clipped afterwards), and a
present value `v` becomes `max(min_f, min(max_f, v))`. -/
theorem assembly_matches_contract (r : MergedRow) (f : Feature) :
    clipLoop r feature_order f = some (assemble_spec r f) := by
  rw [clipLoop_char]
  rcases hrf : r f with _ | v <;> simp only [clipVal, assemble_spec, hrf]
  exact congrArg some (clip_comm _ _ _ (ranges_le f))

/-- C3: the category engine never returns "System Load": whenever rule 5's
predicate (`network_bad` and `cpu_load > 8`) holds, rule 1's predicate
(`network_bad` and (`cpu_temp > 65` or `cpu_load > 6`)) already holds and
matches first, so the branch is unreachable. -/
theorem system_load_unreachable (eps : ℚ) (row : RowVals) :
    categorize_anomaly eps row ≠ "System Load" := by
  unfold categorize_anomaly
  split_ifs with h1 h2 h3 h4 h5
  · decide
  · decide
  · decide
  · decide
  · exact absurd ⟨h5.1, Or.inr (by linarith [h5.2])⟩ h1
  · decide

/-- C4: the rules are evaluated in the listed order with first match
winning; whenever Thermal's predicate and Motion-Induced's predicate hold
simultaneously, the returned category is Thermal. -/
theorem thermal_wins_over_motion (eps : ℚ) (row : RowVals)
    (hnb : network_bad row)
    (hth : row Feature.cpu_temp > 65 ∨ row Feature.cpu_load > 6)
    (_hmo : row Feature.motion_level > 0) :
    categorize_anomaly eps row = "Thermal" := by
  unfold categorize_anomaly
  rw [if_pos ⟨hnb, hth⟩]

theorem thermal_wins_over_motion_witness :
    categorize_anomaly epsDefault (scenarioRow 150 0 10 70 5 3 (-50)) = "Thermal" :=
  thermal_wins_over_motion epsDefault (scenarioRow 150 0 10 70 5 3 (-50))
    (by norm_num [network_bad, scenarioRow])
    (by norm_num [scenarioRow])
    (by norm_num [scenarioRow])

/-- C5: the three anomaly-flagged scenarios of the spec are categorized as
Thermal, Motion-Induced and Weak Signal respectively. -/
theorem scenario_categories :
    categorize_anomaly epsDefault (scenarioRow 150 0 10 70 5 0 (-50)) = "Thermal" ∧
    categorize_anomaly epsDefault (scenarioRow 50 0 35 60 2 3 (-50)) = "Motion-Induced" ∧
    categorize_anomaly epsDefault (scenarioRow 110 0 5 50 1 0 (-80)) = "Weak Signal" := by
  refine ⟨?_, ?_, ?_⟩ <;>
    norm_num [categorize_anomaly, network_bad, jitter_ratio, scenarioRow, epsDefault]

/-- C6: whenever the classifier's prediction does not flag the vector
(`pred ≠ -1`, so `is_anomaly = 0`), the published category is "Normal",
without consulting the rule engine. -/
theorem normal_when_not_flagged (inp : LoopInput) (h : inp.pred ≠ -1) :
    (loopIteration inp).category = "Normal" := by
  simp [loopIteration, h]

theorem normal_when_not_flagged_witness :
    (loopIteration ⟨fun _ => 0, none, ⟨none, 0, 0, 0⟩, none, none, 1⟩).category
      = "Normal" :=
  normal_when_not_flagged ⟨fun _ => 0, none, ⟨none, 0, 0, 0⟩, none, none, 1⟩
    (by decide)

/-- C7: on every failure of the network probe — `subprocess` raising
(`outcome = none`) or any exception in the body, including zero echo replies
(`statistics.mean` of an empty list) — `ping_test` returns exactly
`(None, 100, None)`; being a total function into the triple type, it never
propagates an exception. -/
theorem ping_test_failure_triple (pstdev : List ℚ → ℚ) (count : ℕ)
    (outcome : Option (List ℚ))
    (h : outcome = none ∨ ∃ l e, outcome = some l ∧
      pingBody pstdev count l = Except.error e) :
    ping_test pstdev count outcome = (none, 100, none) := by
  rcases h with h | ⟨l, e, rfl, hb⟩
  · rw [h]; rfl
  · simp [ping_test, hb]

theorem ping_test_failure_triple_witness :
    ping_test (fun _ => 0) 3 (some []) = (none, 100, none) :=
  ping_test_failure_triple (fun _ => 0) 3 (some [])
    (Or.inr ⟨[], PingErr.statisticsError, rfl, rfl⟩)

/-- C8: the sensor-link reader maps the recognized keys T, H, M, AX, AY,
AZ, GX, GY, GZ to `ambient_temp` (float), `humidity` (float),
`motion_level` (int) and `ax, ay, az, gx, gy, gz` (int); any record whose
parse raises (a pair failing to unpack or a value failing to convert)
yields `None` for that entire poll with the exception caught; and when no
record is ready the poll yields `None`. -/
theorem arduino_poll_contract :
    read_arduino_data none = none ∧
    (∀ (raw : String) (e : ParseErr),
        parseArduinoLine (stripChars raw.data) = Except.error e →
        read_arduino_data (some raw) = none) ∧
    read_arduino_data
        (some "T:22.5,H:40.5,M:2,AX:100,AY:-200,AZ:3,GX:-4,GY:5,GZ:0") =
      some ⟨some (45/2), some (81/2), some 2, some 100, some (-200), some 3,
            some (-4), some 5, some 0⟩ := by
  refine ⟨rfl, ?_, ?_⟩
  · intro raw e h
    simp [read_arduino_data, h]
  · simp [read_arduino_data, parseArduinoLine, parsePairs, parsePair,
          splitOnChar, stripChars, upperChars, setImu, parsePyFloat,
          parsePyFloatMag, parsePyInt, digitsVal, emptyArduinoData]
    norm_num

theorem arduino_poll_contract_witness :
    read_arduino_data (some "T:abc") = none :=
  arduino_poll_contract.2.1 "T:abc" ParseErr.valueError rfl

/-- C9: for every combination of probe outcomes — including all four probes
failing — every one of the 17 features of the record published by a loop
iteration has a concrete numeric value: none is absent after assembly. -/
theorem assembled_row_total (inp : LoopInput) (f : Feature) :
    ((loopIteration inp).features f).isSome = true := by
  simp [loopIteration, clipLoop_char]

/-- C10: for every merged input map, the assembled `ping_avg` is either the
default `0` or a value clipped into `[0, 2000]`, so the denominator
`ping_avg + 1e-6` of `jitter_ratio` is strictly positive and the division
in the rule engine is always well-defined. -/
theorem jitter_ratio_denominator_pos (r : MergedRow) :
    0 < (clipLoop r feature_order Feature.ping_avg).getD 0 + epsDefault := by
  rw [clipLoop_char]
  rcases hr : r Feature.ping_avg with _ | v
  · norm_num [clipVal, epsDefault]
  · simp only [Option.getD_some, clipVal]
    have h1 : (0 : ℚ) ≤
        min (max v (feature_clip_ranges Feature.ping_avg).1)
          (feature_clip_ranges Feature.ping_avg).2 := by
      refine le_min (le_trans ?_ (le_max_right _ _)) ?_ <;>
        norm_num [feature_clip_ranges]
    have h2 : (0 : ℚ) < epsDefault := by norm_num [epsDefault]
    linarith
